import Mathlib

/-!
Verification of the client-side synchronization layer of the agent control-panel UI
(`src/src/App.jsx`): the notification queue (`NotificationProvider`), the cached
request unit (`useCachedRequest`), the files tab (`FilesTab`), the current-task tab
(`CurrentTaskTab`) and the development-plan tab (`DevelopmentPlanTab`).

The JavaScript code is shallowly embedded: React state hooks become explicit state
records, each handler becomes a pure function from the current state and the outcome
of its network call to the next state together with the list of network calls it
issued and the list of notifications it pushed.  JavaScript values that flow through
the code untyped (axios payloads, `setContent` arguments, error descriptions) are
modelled by the inductive type `JVal` with JavaScript truthiness.
-/

namespace UIAgent

/-- A JavaScript value, as far as the UI code observes it: `null`/`undefined` are
collapsed to `JVal.null` except where optional chaining is modelled with `Option`.
Numbers are modelled as integers (no fractional values occur in the embedded code
paths). -/
inductive JVal where
  | null : JVal
  | bool : Bool → JVal
  | num : Int → JVal
  | str : String → JVal
  | arr : List JVal → JVal
  | obj : List (String × JVal) → JVal

/-- JavaScript truthiness: `null`, `false`, `0` and `""` are falsy; every array and
object (even empty) is truthy. -/
def JVal.truthy : JVal → Bool
  | .null => false
  | .bool b => b
  | .num n => n != 0
  | .str s => s != ""
  | .arr _ => true
  | .obj _ => true

/-- Property access `v.k` on a JavaScript value: defined field of an object, else
`undefined` (modelled as `none`). -/
def JVal.getField (v : JVal) (k : String) : Option JVal :=
  match v with
  | .obj fields => fields.lookup k
  | _ => none

/-- The nullish-coalescing operator `x ?? dflt` applied to a possibly-undefined
value. -/
def nullish (v : Option JVal) (dflt : JVal) : JVal :=
  match v with
  | none => dflt
  | some .null => dflt
  | some v => v

/-- One network call issued through axios: method, url, query params, JSON body
(`JVal.null` when the call has no body). -/
structure NetCall where
  method : String
  url : String
  params : List (String × String)
  body : JVal

/-- The argument of `pushMessage`: kind (`"error"`/`"success"`), title, description,
and the optional `ttl` field (milliseconds). -/
structure PushInput where
  type : String
  title : String
  description : JVal
  ttl : Option Nat := none

/-- A message as pushed to the notification queue, before an id is assigned
(used to record the notifications a handler emits). -/
structure Message where
  type : String
  title : String
  description : JVal

/-- A live notification held by `NotificationProvider`: the pushed message plus its
assigned id.  `crypto.randomUUID()` (with the `Math.random` fallback) is modelled as
a fresh-id supply: ids are natural numbers drawn from a counter, standing for the
generator's output. -/
structure Notif where
  id : Nat
  type : String
  title : String
  description : JVal

/-- The state of `NotificationProvider`: the ordered live set `messages` plus the
fresh-id counter modelling the id generator. -/
structure NotifState where
  messages : List Notif
  nextId : Nat

/-- `removeMessage(id)`: filters the live set, keeping every message whose id
differs (source line `msgs.filter((msg) => msg.id !== id)`). -/
def removeMessage (id : Nat) (s : NotifState) : NotifState :=
  { s with messages := s.messages.filter (fun m => m.id != id) }

/-- `pushMessage(message)`: draws a fresh id, appends the notification to the live
set, and schedules `removeMessage id` after `message.ttl ?? 4000` milliseconds.
Returns the new state, the assigned id and the scheduled delay; the deferred
callback itself is `removeMessage id`. -/
def pushMessage (m : PushInput) (s : NotifState) : NotifState × Nat × Nat :=
  let id := s.nextId
  ({ messages := s.messages ++ [⟨id, m.type, m.title, m.description⟩],
     nextId := s.nextId + 1 },
   id, m.ttl.getD 4000)

/-- The ids of the live notifications. -/
def liveIds (s : NotifState) : List Nat := s.messages.map Notif.id

/-- An axios error as observed by the embedded code: `responseMessage` models the
optional chain `err.response?.data?.message` (`none` when the response or the field
is absent), `message` is the transport error message `err.message`. -/
structure AxiosError where
  responseMessage : Option JVal
  message : String

/-- The error description computed in the `catch` of `useCachedRequest.request`:
`err.response?.data?.message || err.message`. -/
def extractErrMsg (e : AxiosError) : JVal :=
  match e.responseMessage with
  | some v => if v.truthy then v else .str e.message
  | none => .str e.message

/-- The ref cell `cacheRef.current = { data, timestamp }` of `useCachedRequest`
(initially `{ data: null, timestamp: null }`). -/
structure Cache where
  data : JVal
  timestamp : Option Nat

/-- The state of one `useCachedRequest(endpoint, method)` instance: the cache ref
plus the `loading`, `data` and `error` React states (all initially falsy). -/
structure CRState where
  endpoint : String
  method : String
  cache : Cache
  loading : Bool
  data : JVal
  error : JVal

/-- The initial state of `useCachedRequest(endpoint, method)`. -/
def CRState.init (endpoint : String) (method : String := "GET") : CRState :=
  ⟨endpoint, method, ⟨.null, none⟩, false, .null, .null⟩

/-- One atomic observable step of a `useCachedRequest` instance.  `start` is the
synchronous prefix of `request` (`setLoading(true); setError(null)`); `success`
and `failure` are the two continuations after the awaited axios call resolves
(each runs as one synchronous, hence atomically observable, block); `hydrate` is
`hydrateFromCache`. -/
inductive CREvent where
  | start : CREvent
  | success (now : Nat) (payload : JVal) : CREvent
  | failure (err : AxiosError) : CREvent
  | hydrate : CREvent

/-- The state transition of one `CREvent`, read off the body of `useCachedRequest`:
`start` sets `loading` and clears `error`; `success` stores the payload in the
cache ref and in `data` and clears `loading`; `failure` sets `error` to the
extracted description and clears `loading` (`data` and the cache are untouched);
`hydrate` copies the cached data into `data` when it is truthy. -/
def CRState.stepE (s : CRState) : CREvent → CRState
  | .start => { s with loading := true, error := .null }
  | .success now payload =>
      { s with cache := ⟨payload, some now⟩, data := payload, loading := false }
  | .failure err => { s with error := extractErrMsg err, loading := false }
  | .hydrate => if s.cache.data.truthy then { s with data := s.cache.data } else s

/-- Run a sequence of observable steps from a state. -/
def CRState.run (s : CRState) (es : List CREvent) : CRState := es.foldl CRState.stepE s

/-- One full `request(options)` call whose network call has the given outcome:
the synchronous `start` prefix followed by the matching continuation.  Returns the
final state, the notifications pushed, the network calls issued, and the value the
returned promise settles with (`Except.error` models the re-thrown error). -/
def CRState.request (s : CRState) (now : Nat) :
    (outcome : Except AxiosError JVal) → CRState × List Message × List NetCall × Except AxiosError JVal
  | .ok payload =>
      ((s.stepE .start).stepE (.success now payload), [],
       [⟨s.method, s.endpoint, [], .null⟩], .ok payload)
  | .error err =>
      ((s.stepE .start).stepE (.failure err),
       [⟨"error", "Ошибка", extractErrMsg err⟩],
       [⟨s.method, s.endpoint, [], .null⟩], .error err)

/-- `hydrateFromCache()`: `if (cacheRef.current.data) setData(cacheRef.current.data)`.
The body contains no axios call, so the list of network calls it issues is empty by
construction. -/
def CRState.hydrateFromCache (s : CRState) : CRState × List NetCall :=
  (s.stepE .hydrate, [])

/-! ## FilesTab -/

/-- One entry of the flat file list `data.files`.  The optional `description` and
`modified` fields are kept as JavaScript values. -/
structure FileEntry where
  name : String
  description : JVal
  modified : JVal

/-- `str.trim()`: strips leading and trailing whitespace, modelled character-wise
(`Char.isWhitespace` covers the ASCII whitespace the embedded inputs use). -/
def jsTrim (s : String) : String :=
  ⟨((s.data.dropWhile Char.isWhitespace).reverse.dropWhile Char.isWhitespace).reverse⟩

/-- `str.toLowerCase()`, modelled character-wise (the file names in the embedded
claims are ASCII, where `Char.toLower` agrees with JavaScript). -/
def jsToLower (s : String) : String := ⟨s.data.map Char.toLower⟩

/-- Helper for `String.includes`: does the character list start with the pattern? -/
def charsStartWith : List Char → List Char → Bool
  | _, [] => true
  | [], _ :: _ => false
  | c :: cs, d :: ds => c == d && charsStartWith cs ds

/-- Helper for `String.includes`: does the pattern occur at some position? -/
def charsInclude : List Char → List Char → Bool
  | [], pat => pat.isEmpty
  | c :: cs, pat => charsStartWith (c :: cs) pat || charsInclude cs pat

/-- `s.includes(pat)`: substring containment. -/
def jsIncludes (s pat : String) : Bool := charsInclude s.data pat.data

/-- The predicate of the `filteredFiles` memo:
`file.name.toLowerCase().includes(filter.toLowerCase())`. -/
def fileMatches (filter : String) (f : FileEntry) : Bool :=
  jsIncludes (jsToLower f.name) (jsToLower filter)

/-- The `filteredFiles` memo of `FilesTab`: `[]` when `data?.files` is absent,
otherwise `data.files.filter(...)` with the case-insensitive substring predicate.
The cached payload is modelled already parsed into its `files` list. -/
def filteredFiles (data : Option (List FileEntry)) (filter : String) : List FileEntry :=
  match data with
  | none => []
  | some files => files.filter (fileMatches filter)

/-- The local state of the content pane of `FilesTab`: `content` (initially `""`),
`selectedFile` (initially `null`), and `isContentLoading` (initially `false`). -/
structure ContentPane where
  content : JVal
  selectedFile : JVal
  isContentLoading : Bool

/-- The initial content-pane state of `FilesTab`. -/
def ContentPane.initial : ContentPane := ⟨.str "", .null, false⟩

/-- The synchronous prefix of `fetchFileContent`: `setContentLoading(true)` (no
other state is touched before the awaited axios call). -/
def startContentFetch (p : ContentPane) : ContentPane :=
  { p with isContentLoading := true }

/-- The continuation of `fetchFileContent` after its axios call settles: on success
`setContent(response.data.content ?? "")` and `setSelectedFile(fileName)`; on
failure the `catch` block is empty (its comment says "handled globally" but no
global handler exists in the file), so no notification is pushed and no state
changes; `finally` runs `setContentLoading(false)`.  Returns the new pane and the
notifications pushed. -/
def finishContentFetch (p : ContentPane) (fileName : String) :
    Except AxiosError JVal → ContentPane × List Message
  | .ok resp =>
      ({ p with content := nullish (resp.getField "content") (.str ""),
                selectedFile := .str fileName, isContentLoading := false }, [])
  | .error _ => ({ p with isContentLoading := false }, [])

/-- One full `fetchFileContent(fileName)` call with the given network outcome:
returns the final pane state, the notifications pushed, and the network calls
issued (one `GET /files?name=fileName`). -/
def fetchFileContent (p : ContentPane) (fileName : String)
    (outcome : Except AxiosError JVal) : ContentPane × List Message × List NetCall :=
  let r := finishContentFetch (startContentFetch p) fileName outcome
  (r.1, r.2, [⟨"GET", "/files", [("name", fileName)], .null⟩])

/-- The rendering of the content pane:
`isContentLoading ? "Загрузка содержимого..." : content || "Выберите файл, чтобы увидеть содержимое."`. -/
def ContentPane.render (p : ContentPane) : JVal :=
  if p.isContentLoading then .str "Загрузка содержимого..."
  else if p.content.truthy then p.content
  else .str "Выберите файл, чтобы увидеть содержимое."

/-- `triggerIndexing()`: posts `/index`; on success pushes one success
notification; on failure the `catch` block is empty (no notification).  Returns the
notifications pushed and the network calls issued. -/
def triggerIndexing : Except AxiosError JVal → List Message × List NetCall
  | .ok _ =>
      ([⟨"success", "Индексация запущена", .str "Индексация файлов успешно запущена."⟩],
       [⟨"POST", "/index", [], .null⟩])
  | .error _ => ([], [⟨"POST", "/index", [], .null⟩])

/-! ## CurrentTaskTab -/

/-- The result of one `submitTask()` call: the final value of the `input` state,
the notifications pushed, the network calls issued, and whether `loadTask()` (an
immediate refresh of the task state) was triggered. -/
structure SubmitResult where
  input : String
  notifs : List Message
  netCalls : List NetCall
  refreshed : Bool

/-- `submitTask()` of `CurrentTaskTab` with the given network outcome.  If
`input.trim()` (modelled by `jsTrim`) is empty it pushes one error notification and returns before any
network call; otherwise it posts `{ description: input.trim() }` to `/task` and, on
acceptance, pushes one success notification, clears the input and calls
`loadTask()`; on failure the `catch` block is empty. -/
def submitTask (input : String) (outcome : Except AxiosError JVal) : SubmitResult :=
  if jsTrim input = "" then
    { input := input,
      notifs := [⟨"error", "Некорректное описание", .str "Заполните поле описания задачи."⟩],
      netCalls := [], refreshed := false }
  else
    let call : NetCall := ⟨"POST", "/task", [], .obj [("description", .str (jsTrim input))]⟩
    match outcome with
    | .ok _ =>
        { input := "",
          notifs := [⟨"success", "Задача поставлена", .str "Задача успешно отправлена в агент."⟩],
          netCalls := [call], refreshed := true }
    | .error _ => { input := input, notifs := [], netCalls := [call], refreshed := false }

/-- `cancelTask()` of `CurrentTaskTab`: posts `{ cancel: true }` to `/task`; on
success pushes one success notification and calls `loadTask()`; on failure the
`catch` block is empty.  Returns notifications, network calls, and whether the
refresh was triggered. -/
def cancelTask : Except AxiosError JVal → List Message × List NetCall × Bool
  | .ok _ =>
      ([⟨"success", "Задача отменена", .str "Текущая задача отменена."⟩],
       [⟨"POST", "/task", [], .obj [("cancel", .bool true)]⟩], true)
  | .error _ => ([], [⟨"POST", "/task", [], .obj [("cancel", .bool true)]⟩], false)

/-! ## DevelopmentPlanTab -/

/-- The plan-item draft of `DevelopmentPlanTab`: `{ title, priority, status }`,
plus an `id` field when `editItem` filled the form from an existing item. -/
structure PlanDraft where
  id : Option String
  title : String
  priority : String
  status : String

/-- The draft as the JSON body sent by `axios.post("/plan", draft)`: the `id`
field is present exactly when the draft carries one. -/
def draftToJVal (d : PlanDraft) : JVal :=
  .obj ((match d.id with
         | some i => [("id", JVal.str i)]
         | none => []) ++
        [("title", .str d.title), ("priority", .str d.priority), ("status", .str d.status)])

/-- The result of one `savePlanItem()` call: the final draft state, the
notifications pushed, the network calls issued, and whether `loadPlan()` (a reload
of the full plan collection) was triggered. -/
structure SaveResult where
  draft : PlanDraft
  notifs : List Message
  netCalls : List NetCall
  reloaded : Bool

/-- `savePlanItem()` of `DevelopmentPlanTab` with the given network outcome.  If
`draft.title.trim()` is empty it pushes one error notification and returns before
any network call; otherwise it posts the full draft to `/plan` and, on success,
pushes one success notification, resets the draft to
`{ title: "", priority: "medium", status: "planned" }` and calls `loadPlan()`; on
failure the `catch` block is empty. -/
def savePlanItem (draft : PlanDraft) (outcome : Except AxiosError JVal) : SaveResult :=
  if jsTrim draft.title = "" then
    { draft := draft,
      notifs := [⟨"error", "Пустое название", .str "Введите название элемента."⟩],
      netCalls := [], reloaded := false }
  else
    let call : NetCall := ⟨"POST", "/plan", [], draftToJVal draft⟩
    match outcome with
    | .ok _ =>
        { draft := ⟨none, "", "medium", "planned"⟩,
          notifs := [⟨"success", "Элемент сохранен", .str "План обновлен успешно."⟩],
          netCalls := [call], reloaded := true }
    | .error _ => { draft := draft, notifs := [], netCalls := [call], reloaded := false }

/-! ## File Tree Browser (spec-modelled)

`src/src/App.jsx` contains no hierarchical tree fetch: `FilesTab` only consumes the
flat `GET /files` list.  The repository's own README describes a tree/list file
panel, and the spec (§4.5) specifies the tree fetch and its flat-list fallback, so
the missing component is modelled from the spec here. -/

/-- Modelled from the spec: the File Tree Browser's session state — whether the
one-time tree fetch has been attempted, and whether it failed and the browser fell
back to the flat-list view.  The tree-fetch and fallback code is absent from
`src/`; this follows §4.5: "On first activation, attempts to fetch a hierarchical
tree; if the attempt fails for any reason, falls back permanently (for the session)
to the flat-list view … the fallback decision is made once and is not retried
automatically." -/
structure BrowserState where
  activated : Bool
  fallback : Bool

/-- Modelled from the spec: the browser before its first activation. -/
def BrowserState.initial : BrowserState := ⟨false, false⟩

/-- Modelled from the spec: events of one browsing session — an activation whose
tree fetch succeeds or fails (`treeOk`), and a file-list interaction; the
interaction's parameter records whether a tree fetch issued at that moment would
succeed (it is never issued, so the parameter is ignored). -/
inductive BrowserEvent where
  | activate (treeOk : Bool) : BrowserEvent
  | interact (laterTreeWouldSucceed : Bool) : BrowserEvent

/-- Modelled from the spec: one step of the File Tree Browser.  The tree is
fetched only on the first activation; a failure sets the permanent `fallback`
flag; file-list interactions never issue a tree fetch.  Returns the new state and
the network calls issued. -/
def browserStep (s : BrowserState) : BrowserEvent → BrowserState × List NetCall
  | .activate treeOk =>
      if s.activated then (s, [])
      else ({ activated := true, fallback := !treeOk }, [⟨"GET", "/tree", [], .null⟩])
  | .interact _ => (s, [])

/-- Modelled from the spec: the view the file-list interactions use — the flat-list
view exactly when the browser has fallen back. -/
def BrowserState.viewMode (s : BrowserState) : String :=
  if s.fallback then "flat" else "tree"

/-- Modelled from the spec: run a sequence of session events, accumulating the
network calls issued. -/
def browserRun (s : BrowserState) : List BrowserEvent → BrowserState × List NetCall
  | [] => (s, [])
  | e :: es =>
      let r := browserStep s e
      let rest := browserRun r.1 es
      (rest.1, r.2 ++ rest.2)

/-- Does the event record a successfully resolved request? -/
def CREvent.isSuccess : CREvent → Bool
  | .success _ _ => true
  | _ => false

/-- Sample cached file list for the concrete filter instances. -/
def demoFiles : List FileEntry :=
  [⟨"App.jsx", .null, .null⟩, ⟨"README.md", .null, .null⟩, ⟨"myapp.config.js", .null, .null⟩]

/-! ## Theorems -/

/-- Helper: a run containing no successfully resolved request leaves the cache ref
empty (`start`, `failure` and `hydrate` steps never write the cache). -/
theorem run_no_success_cache_null (es : List CREvent) :
    ∀ s : CRState, s.cache.data = JVal.null →
      es.all (fun e => !e.isSuccess) = true →
      (CRState.run s es).cache.data = JVal.null := by
  induction es with
  | nil => intro s h _; exact h
  | cons e es ih =>
      intro s h hall
      have h1 : (!e.isSuccess) = true ∧ es.all (fun e => !e.isSuccess) = true := by
        simpa [List.all_cons] using hall
      have hrun : CRState.run s (e :: es) = CRState.run (s.stepE e) es := rfl
      rw [hrun]
      cases e with
      | start => exact ih _ (by simpa [CRState.stepE] using h) h1.2
      | success now p => simp [CREvent.isSuccess] at h1
      | failure err => exact ih _ (by simpa [CRState.stepE] using h) h1.2
      | hydrate =>
          refine ih _ ?_ h1.2
          simp [CRState.stepE, h, JVal.truthy]

/-- Helper: every step of a `useCachedRequest` instance preserves the invariant
that `error` is cleared whenever `loading` is set. -/
theorem run_loading_error_inv (es : List CREvent) :
    ∀ s : CRState, (s.loading = true → s.error = JVal.null) →
      (CRState.run s es).loading = true → (CRState.run s es).error = JVal.null := by
  induction es with
  | nil => intro s h; exact h
  | cons e es ih =>
      intro s h
      have hrun : CRState.run s (e :: es) = CRState.run (s.stepE e) es := rfl
      rw [hrun]
      refine ih _ ?_
      cases e with
      | start => intro _; rfl
      | success now p => intro hl; simp [CRState.stepE] at hl
      | failure err => intro hl; simp [CRState.stepE] at hl
      | hydrate =>
          intro hl
          simp only [CRState.stepE] at hl ⊢
          by_cases hc : s.cache.data.truthy = true
          · simp only [hc, if_pos] at hl ⊢
            exact h hl
          · simp only [Bool.not_eq_true] at hc
            simp only [hc, Bool.false_eq_true, if_false] at hl ⊢
            exact h hl

/-- C1: for every Cached Request Unit state and every failing `request()` call,
the previously cached data (both the `data` state and the cache ref) is left
unchanged, `error` is set to the server-provided `message` field when present
(assumed to be a human-readable non-empty string) and to the transport error
message otherwise, exactly one error notification is pushed, `loading` ends
`false`, and the promise rejects with the original error. -/
theorem useCachedRequest_failure_contract (s : CRState) (now : Nat) (err : AxiosError)
    (hmsg : ∀ v, err.responseMessage = some v → ∃ t, t ≠ "" ∧ v = JVal.str t) :
    (s.request now (.error err)).1.data = s.data ∧
    (s.request now (.error err)).1.cache = s.cache ∧
    (s.request now (.error err)).1.loading = false ∧
    (s.request now (.error err)).2.1 = [⟨"error", "Ошибка", extractErrMsg err⟩] ∧
    (∀ v, err.responseMessage = some v → (s.request now (.error err)).1.error = v) ∧
    (err.responseMessage = none → (s.request now (.error err)).1.error = JVal.str err.message) ∧
    (s.request now (.error err)).2.2.2 = Except.error err := by
  refine ⟨rfl, rfl, rfl, rfl, ?_, ?_, rfl⟩
  · intro v hv
    obtain ⟨t, ht, rfl⟩ := hmsg v hv
    simp [CRState.request, CRState.stepE, extractErrMsg, hv, JVal.truthy, ht]
  · intro hv
    simp [CRState.request, CRState.stepE, extractErrMsg, hv]

/-- Witness for C1 at a concrete transport failure with no server message. -/
theorem useCachedRequest_failure_contract_witness :
    ((CRState.init "/files").request 0 (.error ⟨none, "Network Error"⟩)).1.data = JVal.null ∧
    ((CRState.init "/files").request 0 (.error ⟨none, "Network Error"⟩)).1.error
      = JVal.str "Network Error" :=
  ⟨(useCachedRequest_failure_contract (CRState.init "/files") 0 ⟨none, "Network Error"⟩
      (fun _ hv => nomatch hv)).1,
   (useCachedRequest_failure_contract (CRState.init "/files") 0 ⟨none, "Network Error"⟩
      (fun _ hv => nomatch hv)).2.2.2.2.2.1 rfl⟩

/-- C9: `hydrateFromCache` issues no network call, preserves `error`, `loading`
and the cache ref, is the identity when the cache is empty, and in particular is a
no-op on any state reached without a successfully resolved `request()`. -/
theorem hydrateFromCache_contract (s : CRState) :
    s.hydrateFromCache.2 = [] ∧
    s.hydrateFromCache.1.error = s.error ∧
    s.hydrateFromCache.1.loading = s.loading ∧
    s.hydrateFromCache.1.cache = s.cache ∧
    (s.cache.data = JVal.null → s.hydrateFromCache.1 = s) ∧
    (∀ (endpoint method : String) (es : List CREvent),
       es.all (fun e => !e.isSuccess) = true →
       ((CRState.run (CRState.init endpoint method) es).hydrateFromCache).1
         = CRState.run (CRState.init endpoint method) es) := by
  refine ⟨rfl, ?_, ?_, ?_, ?_, ?_⟩
  · simp only [CRState.hydrateFromCache, CRState.stepE]
    split <;> rfl
  · simp only [CRState.hydrateFromCache, CRState.stepE]
    split <;> rfl
  · simp only [CRState.hydrateFromCache, CRState.stepE]
    split <;> rfl
  · intro h
    simp [CRState.hydrateFromCache, CRState.stepE, h, JVal.truthy]
  · intro endpoint method es hall
    have hnull : (CRState.run (CRState.init endpoint method) es).cache.data = JVal.null :=
      run_no_success_cache_null es _ rfl hall
    simp [CRState.hydrateFromCache, CRState.stepE, hnull, JVal.truthy]

/-- Witness for C9: after a run with one failed request and no successful one,
`hydrateFromCache` leaves the state exactly as it was. -/
theorem hydrateFromCache_contract_witness :
    ((CRState.run (CRState.init "/task" "GET")
        [.start, .failure ⟨none, "boom"⟩]).hydrateFromCache).1
      = CRState.run (CRState.init "/task" "GET") [.start, .failure ⟨none, "boom"⟩] :=
  (hydrateFromCache_contract (CRState.init "/task" "GET")).2.2.2.2.2 "/task" "GET"
    [.start, .failure ⟨none, "boom"⟩] rfl

/-- C10: `request()` clears `error` in its synchronous prefix before the network
call, so along any interleaving of request starts, resolutions, failures and
hydrations of a Cached Request Unit, whenever `loading` is observed `true` the
`error` field is `null`. -/
theorem loading_implies_no_error (endpoint method : String) (es : List CREvent)
    (h : (CRState.run (CRState.init endpoint method) es).loading = true) :
    (CRState.run (CRState.init endpoint method) es).error = JVal.null :=
  run_loading_error_inv es (CRState.init endpoint method)
    (fun hl => by simp [CRState.init] at hl) h

/-- Witness for C10: right after a request starts, `loading` is `true` and
`error` is `null`. -/
theorem loading_implies_no_error_witness :
    (CRState.run (CRState.init "/files" "GET") [CREvent.start]).error = JVal.null :=
  loading_implies_no_error "/files" "GET" [CREvent.start] rfl

/-- C8: under the fresh-id-supply invariant (every live id is below the counter),
`pushMessage` assigns a fresh id not held by any live notification, appends the
notification at the end of the live set, preserves the invariant, and schedules
removal after `ttl ?? 4000` milliseconds; the scheduled `removeMessage` callback
is a no-op when the id is no longer live, `push` immediately followed by `remove`
leaves the live set without the id, and removing the same id twice equals removing
it once. -/
theorem pushMessage_contract (m : PushInput) (s : NotifState)
    (hinv : ∀ n ∈ s.messages, n.id < s.nextId) :
    (pushMessage m s).1.messages
      = s.messages ++ [⟨(pushMessage m s).2.1, m.type, m.title, m.description⟩] ∧
    (pushMessage m s).2.1 ∉ liveIds s ∧
    (∀ n ∈ (pushMessage m s).1.messages, n.id < (pushMessage m s).1.nextId) ∧
    (pushMessage m s).2.2 = m.ttl.getD 4000 ∧
    (∀ t : NotifState, (pushMessage m s).2.1 ∉ liveIds t →
        removeMessage (pushMessage m s).2.1 t = t) ∧
    (∀ n ∈ (removeMessage (pushMessage m s).2.1 (pushMessage m s).1).messages,
        n.id ≠ (pushMessage m s).2.1) ∧
    (∀ (t : NotifState) (id2 : Nat),
        removeMessage id2 (removeMessage id2 t) = removeMessage id2 t) := by
  refine ⟨rfl, ?_, ?_, rfl, ?_, ?_, ?_⟩
  · intro hmem
    simp only [liveIds, List.mem_map] at hmem
    obtain ⟨n, hn, hid⟩ := hmem
    have := hinv n hn
    simp only [pushMessage] at hid
    omega
  · intro n hn
    simp only [pushMessage, List.mem_append, List.mem_singleton] at hn ⊢
    rcases hn with hn | rfl
    · exact Nat.lt_succ_of_lt (hinv n hn)
    · exact Nat.lt_succ_self _
  · intro t ht
    have hall : ∀ a ∈ t.messages, (a.id != (pushMessage m s).2.1) = true := by
      intro a ha
      simp only [bne_iff_ne, ne_eq]
      intro hEq
      exact ht (by simpa [liveIds, List.mem_map] using ⟨a, ha, hEq⟩)
    simp [removeMessage, List.filter_eq_self.mpr hall]
  · intro n hn
    simp only [removeMessage, List.mem_filter, bne_iff_ne, ne_eq] at hn
    exact hn.2
  · intro t id2
    simp [removeMessage, List.filter_filter]

/-- Witness for C8: pushing onto an empty provider appends the message with the
fresh id and schedules the default 4000 ms removal. -/
theorem pushMessage_contract_witness :
    (pushMessage ⟨"success", "Задача поставлена", .str "ok", none⟩ ⟨[], 0⟩).1.messages
      = [⟨0, "success", "Задача поставлена", JVal.str "ok"⟩] ∧
    (pushMessage ⟨"success", "Задача поставлена", .str "ok", none⟩ ⟨[], 0⟩).2.2 = 4000 :=
  ⟨(pushMessage_contract ⟨"success", "Задача поставлена", .str "ok", none⟩ ⟨[], 0⟩
      (fun n hn => absurd hn (List.not_mem_nil n))).1,
   (pushMessage_contract ⟨"success", "Задача поставлена", .str "ok", none⟩ ⟨[], 0⟩
      (fun n hn => absurd hn (List.not_mem_nil n))).2.2.2.1⟩

/-- Helper: once the browser is activated, later session events change nothing and
issue no network call. -/
theorem browserRun_after_activation (es : List BrowserEvent) :
    ∀ s : BrowserState, s.activated = true → browserRun s es = (s, []) := by
  induction es with
  | nil => intro s _; rfl
  | cons e es ih =>
      intro s h
      cases e with
      | activate treeOk => simp [browserRun, browserStep, h, ih s h]
      | interact b => simp [browserRun, browserStep, ih s h]

/-- C3 (spec-modelled): when the first activation's tree fetch fails, every
subsequent session interaction sees the permanent fallback flag, uses the
flat-list view, and no further network call — in particular no tree fetch — is
ever issued, even by events at which a tree fetch would succeed. -/
theorem treeFetch_failure_fallback_permanent (es : List BrowserEvent) :
    (browserRun (browserStep BrowserState.initial (.activate false)).1 es).1.fallback = true ∧
    (browserRun (browserStep BrowserState.initial (.activate false)).1 es).1.viewMode = "flat" ∧
    (browserRun (browserStep BrowserState.initial (.activate false)).1 es).2 = [] := by
  have hs : (browserStep BrowserState.initial (.activate false)).1 = ⟨true, true⟩ := rfl
  have h := browserRun_after_activation es ⟨true, true⟩ rfl
  rw [hs, h]
  exact ⟨rfl, rfl, rfl⟩

/-- Witness for C3: a session that interacts twice after the failed tree fetch,
once at a moment where a fresh tree fetch would succeed, still renders flat. -/
theorem treeFetch_failure_fallback_permanent_witness :
    (browserRun (browserStep BrowserState.initial (.activate false)).1
        [.interact false, .activate true, .interact true]).1.viewMode = "flat" :=
  (treeFetch_failure_fallback_permanent [.interact false, .activate true, .interact true]).2.1

/-- C7: the flat-list filter returns exactly the entries of the cached list whose
name contains the filter string case-insensitively, as a sublist of the cached
list (original relative order preserved); with no cached list it returns `[]`.
The filter is a pure function of the cached list and the filter string. -/
theorem filteredFiles_contract (files : List FileEntry) (filter : String) :
    List.Sublist (filteredFiles (some files) filter) files ∧
    (∀ f : FileEntry,
        f ∈ filteredFiles (some files) filter ↔ f ∈ files ∧ fileMatches filter f = true) ∧
    filteredFiles none filter = [] :=
  ⟨List.filter_sublist files, fun _ => List.mem_filter, rfl⟩

/-- Witness for C7: filtering the sample list with `"app"` keeps exactly the two
entries whose names contain `"app"` case-insensitively, in order. -/
theorem filteredFiles_contract_witness :
    filteredFiles (some demoFiles) "app"
      = [⟨"App.jsx", .null, .null⟩, ⟨"myapp.config.js", .null, .null⟩] ∧
    List.Sublist (filteredFiles (some demoFiles) "app") demoFiles ∧
    (FileEntry.mk "App.jsx" .null .null ∈ filteredFiles (some demoFiles) "app" ↔
      FileEntry.mk "App.jsx" .null .null ∈ demoFiles ∧
        fileMatches "app" ⟨"App.jsx", .null, .null⟩ = true) :=
  ⟨rfl, (filteredFiles_contract demoFiles "app").1,
   (filteredFiles_contract demoFiles "app").2.1 _⟩

/-- C4: a blank description is rejected before any network call with exactly one
error notification and no other effect (input kept, no refresh); a non-blank
description issues exactly one create-task POST with the trimmed description and,
on acceptance, pushes one success notification, clears the input and triggers the
immediate task refresh. -/
theorem submitTask_contract (input : String) (outcome : Except AxiosError JVal) :
    (jsTrim input = "" →
      (submitTask input outcome).netCalls = [] ∧
      (submitTask input outcome).notifs
        = [⟨"error", "Некорректное описание", .str "Заполните поле описания задачи."⟩] ∧
      (submitTask input outcome).input = input ∧
      (submitTask input outcome).refreshed = false) ∧
    (jsTrim input ≠ "" →
      (submitTask input outcome).netCalls
        = [⟨"POST", "/task", [], .obj [("description", .str (jsTrim input))]⟩] ∧
      (∀ resp, outcome = .ok resp →
        (submitTask input outcome).notifs
          = [⟨"success", "Задача поставлена", .str "Задача успешно отправлена в агент."⟩] ∧
        (submitTask input outcome).input = "" ∧
        (submitTask input outcome).refreshed = true)) := by
  constructor
  · intro h
    simp [submitTask, h]
  · intro h
    refine ⟨?_, ?_⟩
    · cases outcome <;> simp [submitTask, h]
    · rintro resp rfl
      simp [submitTask, h]

/-- Witness for C4: a whitespace-only description is rejected locally; an accepted
non-blank description clears the input and refreshes. -/
theorem submitTask_contract_witness :
    (submitTask "   " (.ok .null)).netCalls = [] ∧
    (submitTask "   " (.ok .null)).notifs
      = [⟨"error", "Некорректное описание", JVal.str "Заполните поле описания задачи."⟩] ∧
    (submitTask "fix the bug" (.ok .null)).input = "" ∧
    (submitTask "fix the bug" (.ok .null)).refreshed = true := by
  have h1 := (submitTask_contract "   " (.ok .null)).1 (by decide)
  have h2 := ((submitTask_contract "fix the bug" (.ok .null)).2 (by decide)).2 .null rfl
  exact ⟨h1.1, h1.2.1, h2.2.1, h2.2.2⟩

/-- C5: a draft whose title trims to empty is rejected before any network call
with exactly one error notification and the draft kept; a draft with a non-blank
title issues exactly one POST of the full draft (whose JSON body carries the `id`
field exactly when the draft has one) and, on success, pushes one success
notification, resets the draft to `{title:"", priority:"medium", status:"planned"}`
and reloads the full plan collection. -/
theorem savePlanItem_contract (draft : PlanDraft) (outcome : Except AxiosError JVal) :
    (jsTrim draft.title = "" →
      (savePlanItem draft outcome).netCalls = [] ∧
      (savePlanItem draft outcome).notifs
        = [⟨"error", "Пустое название", .str "Введите название элемента."⟩] ∧
      (savePlanItem draft outcome).draft = draft ∧
      (savePlanItem draft outcome).reloaded = false) ∧
    (jsTrim draft.title ≠ "" →
      (savePlanItem draft outcome).netCalls = [⟨"POST", "/plan", [], draftToJVal draft⟩] ∧
      (∀ resp, outcome = .ok resp →
        (savePlanItem draft outcome).notifs
          = [⟨"success", "Элемент сохранен", .str "План обновлен успешно."⟩] ∧
        (savePlanItem draft outcome).draft = ⟨none, "", "medium", "planned"⟩ ∧
        (savePlanItem draft outcome).reloaded = true)) ∧
    (∀ i, draft.id = some i →
      draftToJVal draft
        = .obj [("id", .str i), ("title", .str draft.title),
                ("priority", .str draft.priority), ("status", .str draft.status)]) := by
  refine ⟨?_, ?_, ?_⟩
  · intro h
    simp [savePlanItem, h]
  · intro h
    refine ⟨?_, ?_⟩
    · cases outcome <;> simp [savePlanItem, h]
    · rintro resp rfl
      simp [savePlanItem, h]
  · intro i hi
    simp [draftToJVal, hi]

/-- Witness for C5: a blank-title draft is rejected locally; saving an edited
draft with id `"7"` posts the full draft including the id and resets the form. -/
theorem savePlanItem_contract_witness :
    (savePlanItem ⟨none, " ", "medium", "planned"⟩ (.ok .null)).netCalls = [] ∧
    (savePlanItem ⟨some "7", "Add tests", "high", "planned"⟩ (.ok .null)).draft
      = ⟨none, "", "medium", "planned"⟩ ∧
    draftToJVal ⟨some "7", "Add tests", "high", "planned"⟩
      = .obj [("id", JVal.str "7"), ("title", JVal.str "Add tests"),
              ("priority", JVal.str "high"), ("status", JVal.str "planned")] := by
  have h1 := (savePlanItem_contract ⟨none, " ", "medium", "planned"⟩ (.ok .null)).1 (by decide)
  have h2 :=
    ((savePlanItem_contract ⟨some "7", "Add tests", "high", "planned"⟩ (.ok .null)).2.1
      (by decide)).2 .null rfl
  have h3 :=
    (savePlanItem_contract ⟨some "7", "Add tests", "high", "planned"⟩ (.ok .null)).2.2 "7" rfl
  exact ⟨h1.1, h2.2.1, h3⟩

/-- C2 (code evaluation at the failing inputs): when the server answers a non-2xx
status, `fetchFileContent`, `triggerIndexing`, `submitTask` and `cancelTask` all
issue their network call but push zero notifications — their `catch` blocks are
empty (the comments say "handled globally", yet the file installs no global axios
handler), so these failures are silently dropped instead of producing exactly one
transient notification. -/
theorem networkFailure_notifications_dropped :
    (fetchFileContent ContentPane.initial "App.jsx"
        (.error ⟨none, "Request failed with status code 500"⟩)).2.1 = [] ∧
    (fetchFileContent ContentPane.initial "App.jsx"
        (.error ⟨none, "Request failed with status code 500"⟩)).2.2.length = 1 ∧
    (triggerIndexing (.error ⟨none, "Request failed with status code 500"⟩)).1 = [] ∧
    (triggerIndexing (.error ⟨none, "Request failed with status code 500"⟩)).2.length = 1 ∧
    (submitTask "починить баг" (.error ⟨none, "Request failed with status code 500"⟩)).notifs
      = [] ∧
    (submitTask "починить баг"
        (.error ⟨none, "Request failed with status code 500"⟩)).netCalls.length = 1 ∧
    (cancelTask (.error ⟨none, "Request failed with status code 500"⟩)).1 = [] ∧
    (cancelTask (.error ⟨none, "Request failed with status code 500"⟩)).2.1.length = 1 := by
  have hne : jsTrim "починить баг" ≠ "" := by decide
  refine ⟨rfl, rfl, rfl, rfl, ?_, ?_, rfl, rfl⟩ <;> simp [submitTask, hne]

/-- C6 counterexample: from a pane already showing `"old content"`, a failing
content fetch for another file leaves the previous content in state (it is not
cleared to the empty string), pushes no notification, and afterwards the pane
renders the old content again rather than an empty state. -/
theorem fetchFileContent_failure_keeps_content :
    (startContentFetch ⟨JVal.str "old content", JVal.str "a.txt", false⟩).content
      = JVal.str "old content" ∧
    (fetchFileContent ⟨JVal.str "old content", JVal.str "a.txt", false⟩ "b.txt"
        (.error ⟨none, "Request failed with status code 500"⟩)).1.content
      = JVal.str "old content" ∧
    (fetchFileContent ⟨JVal.str "old content", JVal.str "a.txt", false⟩ "b.txt"
        (.error ⟨none, "Request failed with status code 500"⟩)).1.content ≠ JVal.str "" ∧
    (fetchFileContent ⟨JVal.str "old content", JVal.str "a.txt", false⟩ "b.txt"
        (.error ⟨none, "Request failed with status code 500"⟩)).1.render
      = JVal.str "old content" ∧
    (fetchFileContent ⟨JVal.str "old content", JVal.str "a.txt", false⟩ "b.txt"
        (.error ⟨none, "Request failed with status code 500"⟩)).2.1 = [] := by
  refine ⟨rfl, rfl, ?_, rfl, rfl⟩
  intro h
  injection h with h2
  exact absurd h2 (by decide)

/-- C6 (amended): while a content fetch is in flight the pane shows the loading
indicator and the previous content stays in state (hidden, not cleared); when the
fetch fails, no notification is pushed, the content, selection and hence the
rendered pane revert to their previous values, and the one `GET /files?name=...`
call is the only network traffic. -/
theorem fetchFileContent_amended_contract (p : ContentPane) (fileName : String)
    (err : AxiosError) :
    (startContentFetch p).isContentLoading = true ∧
    (startContentFetch p).content = p.content ∧
    (startContentFetch p).render = JVal.str "Загрузка содержимого..." ∧
    (fetchFileContent p fileName (.error err)).1.content = p.content ∧
    (fetchFileContent p fileName (.error err)).1.selectedFile = p.selectedFile ∧
    (fetchFileContent p fileName (.error err)).1.isContentLoading = false ∧
    (fetchFileContent p fileName (.error err)).2.1 = [] ∧
    (fetchFileContent p fileName (.error err)).2.2
      = [⟨"GET", "/files", [("name", fileName)], .null⟩] := by
  refine ⟨rfl, rfl, ?_, rfl, rfl, rfl, rfl, rfl⟩
  simp [ContentPane.render, startContentFetch]

end UIAgent
